import Mathlib

/-!
Shallow embedding of the imersaoBackend HTTP API: the request pipeline
(jwt gate, zod body validation, handlers) of the fastify app entry and the
route plugin files, together with the environment-schema module.
-/

namespace ImersaoBackend

/-- The claims payload signed at login: `app.jwt.sign({ id: user.id, email: user.email })`. -/
structure JwtClaims where
  id : String
  email : String
deriving DecidableEq, Repr

/-- A signed JWT as produced by the `@fastify/jwt` `sign` call: claims, issued-at,
the optional `exp` claim, and the secret the signature was made with. -/
structure Token where
  claims : JwtClaims
  iat : Nat
  exp : Option Nat
  signedWith : String
deriving DecidableEq, Repr

/-- The authorization channel of an inbound request: header absent, a string that
does not decode as a JWT, or a structurally valid signed token. -/
inductive AuthHeader
  | missing
  | malformed (raw : String)
  | bearer (t : Token)
deriving DecidableEq, Repr

/-- Registration options of `@fastify/jwt`: the secret, and the `sign.expiresIn`
option (seconds) when configured. -/
structure JwtConfig where
  secret : String
  signExpiresIn : Option Nat
deriving DecidableEq, Repr

/-- The registration in the app entry file:
`app.register(fastifyJwt, { secret: "secret" })` — no `sign.expiresIn` option. -/
def appJwtConfig : JwtConfig := { secret := "secret", signExpiresIn := none }

/-- `app.jwt.sign(claims)`: records issued-at and embeds an `exp` claim only when
the registration configured `sign.expiresIn`. -/
def jwtSign (cfg : JwtConfig) (c : JwtClaims) (now : Nat) : Token :=
  { claims := c
    iat := now
    exp := cfg.signExpiresIn.map (fun ttl => now + ttl)
    signedWith := cfg.secret }

/-- `request.jwtVerify()`: succeeds iff a decodable token is presented, its
signature matches the configured secret, and, when an `exp` claim is present,
the current time has not reached it. -/
def jwtVerify (cfg : JwtConfig) (h : AuthHeader) (now : Nat) : Bool :=
  match h with
  | .missing => false
  | .malformed _ => false
  | .bearer t =>
      t.signedWith == cfg.secret &&
      (match t.exp with
       | none => true
       | some e => decide (now < e))

/-- Leaf values of JSON bodies: strings, numbers (modelled as rationals), and the
opaque signed-token string returned by login. -/
inductive JLeaf
  | s (v : String)
  | n (v : Rat)
  | signedTok (t : Token)
deriving DecidableEq, Repr

/-- A (flat) JSON object: an association list of field names to leaf values. -/
abbrev JObj := List (String × JLeaf)

def jlookup (o : JObj) (k : String) : Option JLeaf :=
  o.lookup k

def isStrVal : Option JLeaf → Bool
  | some (.s _) => true
  | _ => false

def isNumVal : Option JLeaf → Bool
  | some (.n _) => true
  | _ => false

/-- Simplified stand-in for the `z.string().email()` format check: one `@` with
non-empty text on both sides. -/
def isEmailStr (v : String) : Bool :=
  match v.data.splitOn '@' with
  | [a, b] => !a.isEmpty && !b.isEmpty
  | _ => false

/-- `createUserSchema`: `{ nome: z.string(), email: z.string().email(),
password: z.string().min(8) }`. -/
def createUserSchemaCheck (o : JObj) : Bool :=
  isStrVal (jlookup o "nome") &&
  (match jlookup o "email" with
   | some (.s v) => isEmailStr v
   | _ => false) &&
  (match jlookup o "password" with
   | some (.s v) => decide (8 ≤ v.length)
   | _ => false)

/-- `createBookSchema`: `{ nome: z.string(), autor: z.string(),
preco: z.number(), quantidade: z.number() }` — no further constraints. -/
def createBookSchemaCheck (o : JObj) : Bool :=
  isStrVal (jlookup o "nome") &&
  isStrVal (jlookup o "autor") &&
  isNumVal (jlookup o "preco") &&
  isNumVal (jlookup o "quantidade")

/-- The declared keys of `userResponseSchema` (`{ id, nome, email }`). -/
def userResponseKeys : List String := ["id", "nome", "email"]

/-- The declared keys of `bookResponseSchema`. -/
def bookResponseKeys : List String :=
  ["id", "nome", "autor", "preco", "quantidade", "createdAt", "updatedAt"]

/-- The zod object serializer: a `z.object` keeps exactly its declared keys and
drops unknown fields of the value being serialized. -/
def zodPick (keys : List String) (fields : JObj) : JObj :=
  keys.filterMap (fun k => (jlookup fields k).map (fun v => (k, v)))

/-- A stored `user` row: `id`, `nome`, `email`, and the `password` column, which
holds the hash produced at registration. -/
structure UserRec where
  id : String
  nome : String
  email : String
  password : String
deriving DecidableEq, Repr

/-- The full user row as the handler hands it to `reply.send` (before response
serialization) — including the `password` column. -/
def UserRec.toFields (u : UserRec) : JObj :=
  [("id", .s u.id), ("nome", .s u.nome), ("email", .s u.email),
   ("password", .s u.password)]

/-- A stored `livros` row. -/
structure BookRec where
  id : String
  nome : String
  autor : String
  preco : Rat
  quantidade : Rat
  createdAt : Nat
  updatedAt : Nat
deriving DecidableEq, Repr

/-- The full book row as handed to `reply.send`. -/
def BookRec.toFields (b : BookRec) : JObj :=
  [("id", .s b.id), ("nome", .s b.nome), ("autor", .s b.autor),
   ("preco", .n b.preco), ("quantidade", .n b.quantidade),
   ("createdAt", .n (b.createdAt : Rat)), ("updatedAt", .n (b.updatedAt : Rat))]

/-- The persistent state reached through the prisma client: the `user` and
`livros` tables. -/
structure World where
  users : List UserRec
  livros : List BookRec
deriving DecidableEq, Repr

/-- The routes registered by the app entry's plugins. -/
inductive Route
  | postUser
  | postLogin
  | getProfile
  | postLivros
  | getLivros
  | putLivro
  | deleteLivro
deriving DecidableEq, Repr

/-- The lifecycle hooks a route plugin registers. -/
inductive Hook
  | onRequestJwtVerify
deriving DecidableEq, Repr

/-- One route plugin file: the hooks it adds via `app.addHook`. -/
structure Plugin where
  hooks : List Hook
deriving DecidableEq, Repr

/-- `create-user.ts`: registers POST /user, no hooks. -/
def createUserPlugin : Plugin := { hooks := [] }

/-- `login.ts`: registers POST /login, no hooks. -/
def loginPlugin : Plugin := { hooks := [] }

/-- `profile.ts`: adds the `onRequest` jwtVerify hook, registers GET /profile. -/
def profilePlugin : Plugin := { hooks := [.onRequestJwtVerify] }

/-- `criar-livros.ts`: adds the `onRequest` jwtVerify hook, registers POST /livros. -/
def criarLivrosPlugin : Plugin := { hooks := [.onRequestJwtVerify] }

/-- `listar-livros.ts`: adds the `onRequest` jwtVerify hook, registers GET /livros. -/
def listarLivrosPlugin : Plugin := { hooks := [.onRequestJwtVerify] }

/-- `atualizar-livros.ts`: registers PUT /livros/:id and adds no hook. -/
def atualizarLivrosPlugin : Plugin := { hooks := [] }

/-- `remover-livros.ts`: adds the `onRequest` jwtVerify hook, registers DELETE /livros/:id. -/
def removerLivrosPlugin : Plugin := { hooks := [.onRequestJwtVerify] }

def pluginOf : Route → Plugin
  | .postUser => createUserPlugin
  | .postLogin => loginPlugin
  | .getProfile => profilePlugin
  | .postLivros => criarLivrosPlugin
  | .getLivros => listarLivrosPlugin
  | .putLivro => atualizarLivrosPlugin
  | .deleteLivro => removerLivrosPlugin

/-- A route is token-gated iff its plugin registered the jwtVerify `onRequest` hook. -/
def requiresAuth (r : Route) : Bool :=
  (pluginOf r).hooks.contains Hook.onRequestJwtVerify

/-- The body schema each route declares in its registration options. POST /login
is registered with no options object, hence no declared body validation. -/
def declaredBodyCheck : Route → Option (JObj → Bool)
  | .postUser => some createUserSchemaCheck
  | .postLivros => some createBookSchemaCheck
  | .putLivro => some createBookSchemaCheck
  | _ => none

/-- An inbound HTTP request: authorization channel, parsed JSON body, and the
`:id` path parameter (empty for routes without one). -/
structure Request where
  auth : AuthHeader
  body : JObj
  paramId : String
deriving DecidableEq, Repr

/-- The password-hashing capability (`utils/hash.ts`, bcrypt): `hashPassword` and
`verifyPassword`, treated as an opaque pair by the handlers. -/
structure HashFns where
  hash : String → String
  verify : String → String → Bool

/-- Server-generated data for one request: the fresh record id the store mints
and the current clock reading. -/
structure Gen where
  freshId : String
  now : Nat
deriving DecidableEq, Repr

/-- Which pipeline stage settled the request. -/
inductive Settled
  | atAuth
  | atValidation
  | atHandler
deriving DecidableEq, Repr

/-- A response body: a JSON object, or the JSON array returned by GET /livros. -/
inductive RespBody
  | obj (fields : JObj)
  | booksArr (xs : List BookRec)
deriving DecidableEq, Repr

/-- The observable outcome of processing one request: the response, the stage
that settled it, whether the handler body ran, how many store calls and hash
computations were made, and the resulting store state. -/
structure RouteResult where
  status : Nat
  body : RespBody
  settledAt : Settled
  handlerRan : Bool
  storeCalls : Nat
  hashCalls : Nat
  world : World
deriving Repr

/-- POST /user handler (`create-user.ts`): look up the email; if a user exists
answer 400 `{message}`; otherwise hash the password, insert the row, and send the
full row, serialized through `userResponseSchema`. -/
def createUserHandler (fns : HashFns) (g : Gen) (w : World) (req : Request) :
    RouteResult :=
  let nome := match jlookup req.body "nome" with | some (.s v) => v | _ => ""
  let email := match jlookup req.body "email" with | some (.s v) => v | _ => ""
  let password := match jlookup req.body "password" with | some (.s v) => v | _ => ""
  match w.users.find? (fun u => u.email == email) with
  | some _ =>
      { status := 400
        body := .obj [("message", .s "Usuário já existe")]
        settledAt := .atHandler, handlerRan := true
        storeCalls := 1, hashCalls := 0, world := w }
  | none =>
      let u : UserRec :=
        { id := g.freshId, nome := nome, email := email, password := fns.hash password }
      { status := 201
        body := .obj (zodPick userResponseKeys u.toFields)
        settledAt := .atHandler, handlerRan := true
        storeCalls := 2, hashCalls := 1
        world := { w with users := w.users ++ [u] } }

/-- POST /login handler (`login.ts`): look up the user by the destructured
`email` first (400 `{message: "Usuario não encontrado"}` when no user matches —
the password is never touched on that path), then verify the destructured
`password` against the stored hash (400 `{message: "Senha incorreta"}` on
mismatch), else sign and return a token. No schema is declared on this route,
so a destructured field may be `undefined` or non-string: with a non-string
`email` the prisma lookup call throws and fastify's default error handler
answers 500; with a matching user but a non-string `password` the bcrypt
compare call throws — before any hash comparison completes — and the request
likewise ends in a 500. -/
def loginHandler (fns : HashFns) (cfg : JwtConfig) (g : Gen) (w : World)
    (req : Request) : RouteResult :=
  match jlookup req.body "email" with
  | some (.s email) =>
      match w.users.find? (fun u => u.email == email) with
      | none =>
          { status := 400
            body := .obj [("message", .s "Usuario não encontrado")]
            settledAt := .atHandler, handlerRan := true
            storeCalls := 1, hashCalls := 0, world := w }
      | some user =>
          match jlookup req.body "password" with
          | some (.s password) =>
              if fns.verify password user.password then
                { status := 200
                  body := .obj [("token",
                    .signedTok (jwtSign cfg { id := user.id, email := user.email } g.now))]
                  settledAt := .atHandler, handlerRan := true
                  storeCalls := 1, hashCalls := 1, world := w }
              else
                { status := 400
                  body := .obj [("message", .s "Senha incorreta")]
                  settledAt := .atHandler, handlerRan := true
                  storeCalls := 1, hashCalls := 1, world := w }
          | _ =>
              { status := 500
                body := .obj [("error", .s "Internal Server Error")]
                settledAt := .atHandler, handlerRan := true
                storeCalls := 1, hashCalls := 0, world := w }
  | _ =>
      { status := 500
        body := .obj [("error", .s "Internal Server Error")]
        settledAt := .atHandler, handlerRan := true
        storeCalls := 1, hashCalls := 0, world := w }

/-- GET /profile handler: returns `request.user`, the decoded token payload. -/
def profileHandler (w : World) (req : Request) : RouteResult :=
  match req.auth with
  | .bearer t =>
      { status := 200
        body := .obj [("id", .s t.claims.id), ("email", .s t.claims.email)]
        settledAt := .atHandler, handlerRan := true
        storeCalls := 0, hashCalls := 0, world := w }
  | _ =>
      { status := 200, body := .obj []
        settledAt := .atHandler, handlerRan := true
        storeCalls := 0, hashCalls := 0, world := w }

/-- POST /livros handler (`criar-livros.ts`): insert the row and send it with
status 201, serialized through `bookResponseSchema`. -/
def criarLivrosHandler (g : Gen) (w : World) (req : Request) : RouteResult :=
  let nome := match jlookup req.body "nome" with | some (.s v) => v | _ => ""
  let autor := match jlookup req.body "autor" with | some (.s v) => v | _ => ""
  let preco := match jlookup req.body "preco" with | some (.n v) => v | _ => 0
  let quantidade := match jlookup req.body "quantidade" with | some (.n v) => v | _ => 0
  let b : BookRec :=
    { id := g.freshId, nome := nome, autor := autor, preco := preco,
      quantidade := quantidade, createdAt := g.now, updatedAt := g.now }
  { status := 201
    body := .obj (zodPick bookResponseKeys b.toFields)
    settledAt := .atHandler, handlerRan := true
    storeCalls := 1, hashCalls := 0
    world := { w with livros := w.livros ++ [b] } }

/-- GET /livros handler (`listar-livros.ts`): `findMany`, status 200. -/
def listarLivrosHandler (w : World) : RouteResult :=
  { status := 200, body := .booksArr w.livros
    settledAt := .atHandler, handlerRan := true
    storeCalls := 1, hashCalls := 0, world := w }

/-- PUT /livros/:id handler (`atualizar-livros.ts`): `prisma.livros.update`
throws when no row matches the id, and the `catch` answers 500 `{error}`;
otherwise the row is rewritten and sent with status 200. -/
def atualizarLivrosHandler (g : Gen) (w : World) (req : Request) : RouteResult :=
  let nome := match jlookup req.body "nome" with | some (.s v) => v | _ => ""
  let autor := match jlookup req.body "autor" with | some (.s v) => v | _ => ""
  let preco := match jlookup req.body "preco" with | some (.n v) => v | _ => 0
  let quantidade := match jlookup req.body "quantidade" with | some (.n v) => v | _ => 0
  match w.livros.find? (fun b => b.id == req.paramId) with
  | none =>
      { status := 500
        body := .obj [("error", .s "Não foi possível atualizar o livro")]
        settledAt := .atHandler, handlerRan := true
        storeCalls := 1, hashCalls := 0, world := w }
  | some b =>
      let b2 : BookRec :=
        { b with nome := nome, autor := autor, preco := preco,
                 quantidade := quantidade, updatedAt := g.now }
      { status := 200
        body := .obj (zodPick bookResponseKeys b2.toFields)
        settledAt := .atHandler, handlerRan := true
        storeCalls := 1, hashCalls := 0
        world := { w with livros := w.livros.map (fun x => if x.id == req.paramId then b2 else x) } }

/-- DELETE /livros/:id handler (`remover-livros.ts`): `prisma.livros.delete`
throws when no row matches, and the `catch` answers 404 `{error}`; otherwise the
row is removed and a confirmation message sent. -/
def removerLivrosHandler (w : World) (req : Request) : RouteResult :=
  match w.livros.find? (fun b => b.id == req.paramId) with
  | none =>
      { status := 404
        body := .obj [("error", .s "Livro não encontrado")]
        settledAt := .atHandler, handlerRan := true
        storeCalls := 1, hashCalls := 0, world := w }
  | some _ =>
      { status := 200
        body := .obj [("message", .s "Livro removidoo com sucesso")]
        settledAt := .atHandler, handlerRan := true
        storeCalls := 1, hashCalls := 0
        world := { w with livros := w.livros.filter (fun b => !(b.id == req.paramId)) } }

def routeHandler (r : Route) (fns : HashFns) (cfg : JwtConfig) (g : Gen)
    (w : World) (req : Request) : RouteResult :=
  match r with
  | .postUser => createUserHandler fns g w req
  | .postLogin => loginHandler fns cfg g w req
  | .getProfile => profileHandler w req
  | .postLivros => criarLivrosHandler g w req
  | .getLivros => listarLivrosHandler w
  | .putLivro => atualizarLivrosHandler g w req
  | .deleteLivro => removerLivrosHandler w req

/-- The fastify lifecycle for one registered route: the plugin's `onRequest`
hooks run first — the jwt gate answers 401 `{error}` and stops the lifecycle on
verification failure; then the declared body schema is validated — failure
answers a 400 client error without running the handler; then the handler runs. -/
def runRoute (r : Route) (fns : HashFns) (cfg : JwtConfig) (g : Gen) (w : World)
    (req : Request) : RouteResult :=
  if (pluginOf r).hooks.contains Hook.onRequestJwtVerify
      && !(jwtVerify cfg req.auth g.now) then
    { status := 401
      body := .obj [("error", .s "Você precia estar logado.")]
      settledAt := .atAuth, handlerRan := false
      storeCalls := 0, hashCalls := 0, world := w }
  else
    match declaredBodyCheck r with
    | some check =>
        if check req.body then
          routeHandler r fns cfg g w req
        else
          { status := 400
            body := .obj [("error", .s "Bad Request")]
            settledAt := .atValidation, handlerRan := false
            storeCalls := 0, hashCalls := 0, world := w }
    | none => routeHandler r fns cfg g w req

/-- A process environment: variable name to value. -/
abbrev Env := List (String × String)

def isWsChar (c : Char) : Bool :=
  c = ' ' || c = '\t' || c = '\n' || c = '\r'

/-- The value of a non-empty all-digit character list, `none` otherwise. -/
def decDigitsVal : List Char → Option Nat
  | [] => none
  | cs =>
      cs.foldl (fun acc c =>
        acc.bind (fun n => if c.isDigit then some (10 * n + (c.toNat - 48)) else none))
        (some 0)

/-- `z.coerce.number()` applied to an environment string, restricted to
decimal-integer literals: the empty (or all-blank) string coerces to 0, an
optional sign followed by digits parses, anything else is NaN (`none`). -/
def jsCoerceNumber (v : String) : Option Int :=
  let cs := ((v.data.dropWhile isWsChar).reverse.dropWhile isWsChar).reverse
  match cs with
  | [] => some 0
  | '-' :: rest => (decDigitsVal rest).map (fun n => -(n : Int))
  | '+' :: rest => (decDigitsVal rest).map (fun n => (n : Int))
  | _ => (decDigitsVal cs).map (fun n => (n : Int))

/-- The parsed configuration produced by `envSchema`. -/
structure EnvConfig where
  databaseUrl : String
  secretJwt : String
  port : Int
deriving DecidableEq, Repr

/-- `envSchema.safeParse` (`schemas/env.ts`): `DATABASE_URL: z.string().min(1)`,
`SECRET_JWT: z.string().min(8)`, `PORT: z.coerce.number().optional().default(3000)`. -/
def envSafeParse (e : Env) : Option EnvConfig :=
  match e.lookup "DATABASE_URL", e.lookup "SECRET_JWT" with
  | some db, some sk =>
      if 1 ≤ db.length && 8 ≤ sk.length then
        match e.lookup "PORT" with
        | none => some { databaseUrl := db, secretJwt := sk, port := 3000 }
        | some p =>
            (jsCoerceNumber p).map
              (fun n => { databaseUrl := db, secretJwt := sk, port := n })
      else none
  | _, _ => none

/-- What loading `utils/env.ts` does: parsed configuration, or `process.exit(1)`. -/
inductive EnvLoad
  | ok (c : EnvConfig)
  | exitCode (n : Nat)
deriving DecidableEq, Repr

/-- `utils/env.ts`: safeParse the process environment, `process.exit(1)` on failure. -/
def loadEnvModule (e : Env) : EnvLoad :=
  match envSafeParse e with
  | some c => .ok c
  | none => .exitCode 1

/-- The module specifiers imported by the app entry file, in source order. -/
def appEntryImports : List String :=
  ["fastify", "fastify-type-provider-zod",
   "./routes/usuarios/create-user.js", "./routes/usuarios/login.js",
   "@fastify/jwt",
   "./routes/livros/criar-livros.js", "./routes/livros/listar-livros.js",
   "./routes/livros/atualizar-livros.js", "./routes/livros/remover-livros.js",
   "./routes/usuarios/profile.js"]

/-- A listening server: the port passed to `app.listen` and the jwt secret the
app was registered with. -/
structure Listening where
  port : Nat
  jwtSecret : String
deriving DecidableEq, Repr

/-- Startup outcome of the process. -/
inductive Startup
  | listening (l : Listening)
  | exited (code : Nat)
deriving DecidableEq, Repr

/-- Startup of the app entry: the env module's exit-on-invalid side effect would
run only if the entry (transitively) imported `./utils/env.js`; it does not, and
the entry registers jwt with the literal `"secret"` and listens on the literal
port 3000, whatever the process environment holds. -/
def startApp (e : Env) : Startup :=
  if appEntryImports.contains "./utils/env.js" then
    match loadEnvModule e with
    | .exitCode n => .exited n
    | .ok _ => .listening { port := 3000, jwtSecret := "secret" }
  else
    .listening { port := 3000, jwtSecret := "secret" }

/-- The book validator the specification describes, for comparison with
`createBookSchemaCheck`: `nome`/`autor` non-empty strings, `preco` a
non-negative number, `quantidade` a non-negative integer. -/
def specBookCheck (o : JObj) : Bool :=
  (match jlookup o "nome" with | some (.s v) => !v.isEmpty | _ => false) &&
  (match jlookup o "autor" with | some (.s v) => !v.isEmpty | _ => false) &&
  (match jlookup o "preco" with | some (.n q) => decide (0 ≤ q) | _ => false) &&
  (match jlookup o "quantidade" with
   | some (.n q) => decide (0 ≤ q) && decide (q.den = 1)
   | _ => false)

/-- A concrete executable hash capability used to evaluate the theorems on
concrete inputs. -/
def demoFns : HashFns :=
  { hash := fun s => s ++ "#h"
    verify := fun p h => (p ++ "#h") == h }

def demoGen : Gen := { freshId := "fresh1", now := 100 }

def demoUser : UserRec :=
  { id := "u1", nome := "Ana", email := "ana@x.com", password := "pw12345678#h" }

def demoBook : BookRec :=
  { id := "b1", nome := "Livro", autor := "Autor", preco := 10, quantidade := 2,
    createdAt := 0, updatedAt := 0 }

def demoWorld : World := { users := [demoUser], livros := [demoBook] }

def validBookBody : JObj :=
  [("nome", .s "X"), ("autor", .s "Y"), ("preco", .n 5), ("quantidade", .n 1)]

/-- A book payload violating every constraint the spec claims: empty strings,
negative price, fractional quantity. -/
def badBookBody : JObj :=
  [("nome", .s ""), ("autor", .s ""), ("preco", .n (-3)), ("quantidade", .n (1/2))]

/-- A token correctly signed with the app secret. -/
def demoTok : Token :=
  jwtSign appJwtConfig { id := "u1", email := "ana@x.com" } 100

/-- A token signed with a different secret. -/
def demoForeignTok : Token :=
  jwtSign { secret := "other-secret", signExpiresIn := none }
    { id := "u1", email := "ana@x.com" } 100

def reqUnknownEmail : Request :=
  { auth := .missing
    body := [("email", .s "bob@x.com"), ("password", .s "pw12345678")]
    paramId := "" }

def reqWrongPw : Request :=
  { auth := .missing
    body := [("email", .s "ana@x.com"), ("password", .s "wrongpass")]
    paramId := "" }

def reqGoodLogin : Request :=
  { auth := .missing
    body := [("email", .s "ana@x.com"), ("password", .s "pw12345678")]
    paramId := "" }

def reqEmptyBody : Request := { auth := .missing, body := [], paramId := "" }

/-- A login body carrying a stored user's email but no password field. -/
def reqKnownEmailNoPw : Request :=
  { auth := .missing, body := [("email", .s "ana@x.com")], paramId := "" }

def reqPutMissing : Request :=
  { auth := .missing, body := validBookBody, paramId := "nope" }

def reqRegisterAna : Request :=
  { auth := .missing
    body := [("nome", .s "Ana"), ("email", .s "ana@x.com"),
             ("password", .s "pw12345678")]
    paramId := "" }

def reqRegisterBia : Request :=
  { auth := .missing
    body := [("nome", .s "Bia"), ("email", .s "bia@x.com"),
             ("password", .s "pw12345678")]
    paramId := "" }

def reqAuthedBadBook : Request :=
  { auth := .bearer demoTok, body := badBookBody, paramId := "" }

def reqBadBookNoAuth : Request :=
  { auth := .missing, body := badBookBody, paramId := "" }

/-- A request with a correctly signed token but a body that is not a book
payload at all. -/
def reqAuthedNotBook : Request :=
  { auth := .bearer demoTok, body := [("nome", .n 3)], paramId := "" }

/-!  Theorems for the claims. -/

/-- C6: PUT /livros/:id performs no token verification before its handler runs,
while POST /livros, DELETE /livros/:id, GET /livros and GET /profile each
require a successfully verified token; POST /user and POST /login are also
ungated, so the gate assignment is exactly this asymmetric set. -/
theorem c6_route_gate_assignment :
    requiresAuth .putLivro = false ∧
    requiresAuth .postLivros = true ∧
    requiresAuth .deleteLivro = true ∧
    requiresAuth .getLivros = true ∧
    requiresAuth .getProfile = true ∧
    requiresAuth .postUser = false ∧
    requiresAuth .postLogin = false := by
  decide

/-- C4 counterexample: the token returned by a successful login carries no
expiry claim at all (the jwt registration sets no `expiresIn`), and
verification still accepts it two hours after issuance, refuting the claim
that every login token embeds a one-hour expiry and is rejected after it. -/
theorem c4_counterexample :
    (runRoute .postLogin demoFns appJwtConfig demoGen demoWorld reqGoodLogin).body =
      .obj [("token", .signedTok demoTok)] ∧
    demoTok.exp = none ∧
    jwtVerify appJwtConfig (.bearer demoTok) (demoGen.now + 7200) = true := by
  decide

/-- C4 amended: a token issued under the app's jwt registration embeds no
expiry timestamp, and verification accepts it at every time. -/
theorem c4_token_never_expires (c : JwtClaims) (now t : Nat) :
    (jwtSign appJwtConfig c now).exp = none ∧
    jwtVerify appJwtConfig (.bearer (jwtSign appJwtConfig c now)) t = true := by
  exact ⟨rfl, rfl⟩

/-- C8 counterexample: with an empty process environment (no database URL, no
signing secret) the app entry still starts listening on port 3000 with the
hardcoded six-character secret, refuting the claim that the process refuses to
start when the configuration is missing. -/
theorem c8_counterexample :
    (([] : Env).lookup "SECRET_JWT") = none ∧
    envSafeParse [] = none ∧
    startApp [] = .listening { port := 3000, jwtSecret := "secret" } := by
  decide

/-- C8 amended: the env module, when loaded, exits with code 1 exactly when the
schema rejects the environment; the schema requires a non-empty DATABASE_URL
and a SECRET_JWT of at least 8 characters, defaults an absent PORT to 3000,
and rejects a non-numeric PORT; but the app entry never imports that module
and starts listening on the literal port 3000 with the literal secret
`"secret"` whatever the environment holds. -/
theorem c8_env_gate_not_wired :
    (∀ e : Env, loadEnvModule e = .exitCode 1 ↔ envSafeParse e = none) ∧
    envSafeParse [("DATABASE_URL", "postgres:db"), ("SECRET_JWT", "12345678")] =
      some { databaseUrl := "postgres:db", secretJwt := "12345678", port := 3000 } ∧
    envSafeParse [("DATABASE_URL", ""), ("SECRET_JWT", "12345678")] = none ∧
    envSafeParse [("DATABASE_URL", "postgres:db"), ("SECRET_JWT", "short")] = none ∧
    envSafeParse [("DATABASE_URL", "postgres:db"), ("SECRET_JWT", "12345678"),
                  ("PORT", "abc")] = none ∧
    envSafeParse [("DATABASE_URL", "postgres:db"), ("SECRET_JWT", "12345678"),
                  ("PORT", "8080")] =
      some { databaseUrl := "postgres:db", secretJwt := "12345678", port := 8080 } ∧
    appEntryImports.contains "./utils/env.js" = false ∧
    (∀ e : Env, startApp e = .listening { port := 3000, jwtSecret := "secret" }) := by
  refine ⟨?_, by decide, by decide, by decide, by decide, by decide, by decide, ?_⟩
  · intro e
    unfold loadEnvModule
    cases envSafeParse e <;> simp
  · intro e
    rfl

/-- C1 counterexample: logging in with an unknown email and logging in with a
known email but wrong password both answer status 400, yet the bodies differ
(`"Usuario não encontrado"` vs `"Senha incorreta"`), refuting the claim that
the two responses are identical. -/
theorem c1_counterexample :
    (runRoute .postLogin demoFns appJwtConfig demoGen demoWorld reqUnknownEmail).status =
      (runRoute .postLogin demoFns appJwtConfig demoGen demoWorld reqWrongPw).status ∧
    (runRoute .postLogin demoFns appJwtConfig demoGen demoWorld reqUnknownEmail).body ≠
      (runRoute .postLogin demoFns appJwtConfig demoGen demoWorld reqWrongPw).body := by
  decide

/-- C2 counterexample: a PUT /livros/:id request with a fully valid body whose
id matches no stored book answers status 500, not a 404 Not-Found-class
client error. -/
theorem c2_counterexample :
    createBookSchemaCheck reqPutMissing.body = true ∧
    demoWorld.livros.find? (fun b => b.id == reqPutMissing.paramId) = none ∧
    (runRoute .putLivro demoFns appJwtConfig demoGen demoWorld reqPutMissing).status = 500 ∧
    (runRoute .putLivro demoFns appJwtConfig demoGen demoWorld reqPutMissing).status ≠ 404 := by
  decide

/-- C9 counterexample: POST /login is registered with no body schema, so a
request with an empty body is not rejected before the handler: the handler
runs, invokes the store capability, and the request ends in a 500 server
error rather than a pre-handler client error. -/
theorem c9_counterexample :
    declaredBodyCheck .postLogin = none ∧
    jlookup reqEmptyBody.body "email" = none ∧
    (runRoute .postLogin demoFns appJwtConfig demoGen demoWorld reqEmptyBody).handlerRan = true ∧
    (runRoute .postLogin demoFns appJwtConfig demoGen demoWorld reqEmptyBody).storeCalls = 1 ∧
    (runRoute .postLogin demoFns appJwtConfig demoGen demoWorld reqEmptyBody).status = 500 := by
  exact ⟨rfl, rfl, rfl, rfl, rfl⟩

/-- C10 counterexample: the book payload with empty name and author, negative
price and fractional quantity passes `createBookSchema`, fails every
constraint the claim states, and (with a valid token) reaches the handler and
is stored with status 201. -/
theorem c10_counterexample :
    createBookSchemaCheck badBookBody = true ∧
    specBookCheck badBookBody = false ∧
    (runRoute .postLivros demoFns appJwtConfig demoGen demoWorld reqAuthedBadBook).handlerRan = true ∧
    (runRoute .postLivros demoFns appJwtConfig demoGen demoWorld reqAuthedBadBook).status = 201 := by
  decide

/-- C1 amended: login with an unknown email and login with a known email but a
failing password verification both answer the same status 400 with a
single-field `{message: string}` body — the same status class and body shape —
but the message strings differ (`"Usuario não encontrado"` vs `"Senha
incorreta"`), so the two cases are distinguishable by a caller. -/
theorem c1_login_error_shapes (fns : HashFns) (g : Gen) (w : World) (req : Request)
    (email password : String)
    (he : jlookup req.body "email" = some (.s email))
    (hp : jlookup req.body "password" = some (.s password)) :
    (w.users.find? (fun u => u.email == email) = none →
      (runRoute .postLogin fns appJwtConfig g w req).status = 400 ∧
      (runRoute .postLogin fns appJwtConfig g w req).body =
        .obj [("message", .s "Usuario não encontrado")]) ∧
    (∀ usr : UserRec, w.users.find? (fun u => u.email == email) = some usr →
      fns.verify password usr.password = false →
      (runRoute .postLogin fns appJwtConfig g w req).status = 400 ∧
      (runRoute .postLogin fns appJwtConfig g w req).body =
        .obj [("message", .s "Senha incorreta")]) := by
  have hrun : runRoute .postLogin fns appJwtConfig g w req
      = loginHandler fns appJwtConfig g w req := rfl
  rw [hrun]
  unfold loginHandler
  constructor
  · intro hnone
    simp [he, hp, hnone]
  · intro usr hfound hv
    simp [he, hp, hfound, hv]

/-- C1 witness: the amended theorem evaluated on a concrete store and a
concrete unknown-email login request. -/
theorem c1_login_error_shapes_witness :
    (runRoute .postLogin demoFns appJwtConfig demoGen demoWorld reqUnknownEmail).status = 400 ∧
    (runRoute .postLogin demoFns appJwtConfig demoGen demoWorld reqUnknownEmail).body =
      .obj [("message", .s "Usuario não encontrado")] :=
  (c1_login_error_shapes demoFns demoGen demoWorld reqUnknownEmail
    "bob@x.com" "pw12345678" rfl rfl).1 (by decide)

/-- C2 amended: a PUT /livros/:id request with a valid body whose id matches no
stored record answers a 500 server error with the route's `{error: string}`
body (the handler's catch-all), not a 404 client error, and leaves the store
unchanged. -/
theorem c2_update_missing_is_500 (fns : HashFns) (g : Gen) (w : World) (req : Request)
    (hvalid : createBookSchemaCheck req.body = true)
    (hnone : w.livros.find? (fun b => b.id == req.paramId) = none) :
    (runRoute .putLivro fns appJwtConfig g w req).status = 500 ∧
    (runRoute .putLivro fns appJwtConfig g w req).body =
      .obj [("error", .s "Não foi possível atualizar o livro")] ∧
    (runRoute .putLivro fns appJwtConfig g w req).world = w := by
  have hrun : runRoute .putLivro fns appJwtConfig g w req
      = if createBookSchemaCheck req.body then atualizarLivrosHandler g w req
        else { status := 400, body := .obj [("error", .s "Bad Request")],
               settledAt := .atValidation, handlerRan := false,
               storeCalls := 0, hashCalls := 0, world := w } := rfl
  rw [hrun, hvalid]
  simp only [if_true]
  unfold atualizarLivrosHandler
  simp [hnone]

/-- C2 witness: the amended theorem evaluated on a concrete store and a
concrete update request for an id that is not stored. -/
theorem c2_update_missing_is_500_witness :
    (runRoute .putLivro demoFns appJwtConfig demoGen demoWorld reqPutMissing).status = 500 ∧
    (runRoute .putLivro demoFns appJwtConfig demoGen demoWorld reqPutMissing).body =
      .obj [("error", .s "Não foi possível atualizar o livro")] ∧
    (runRoute .putLivro demoFns appJwtConfig demoGen demoWorld reqPutMissing).world = demoWorld :=
  c2_update_missing_is_500 demoFns demoGen demoWorld reqPutMissing (by decide) (by decide)

/-- C3: for each protected route (GET /profile, POST /livros, GET /livros,
DELETE /livros/:id), a request whose bearer token is missing, malformed, or
signed with a different secret is answered 401 with the auth error body, the
request is settled at the auth hook — strictly before body validation, so a
simultaneously malformed body is still rejected for the auth reason — the
handler never runs, no store call is made, and the store is unchanged. -/
theorem c3_auth_gate_precedence (r : Route) (fns : HashFns) (g : Gen) (w : World)
    (req : Request)
    (hr : r = .getProfile ∨ r = .postLivros ∨ r = .getLivros ∨ r = .deleteLivro)
    (hauth : req.auth = .missing ∨ (∃ raw, req.auth = .malformed raw) ∨
             (∃ t, req.auth = .bearer t ∧ t.signedWith ≠ appJwtConfig.secret)) :
    (runRoute r fns appJwtConfig g w req).status = 401 ∧
    (runRoute r fns appJwtConfig g w req).body =
      .obj [("error", .s "Você precia estar logado.")] ∧
    (runRoute r fns appJwtConfig g w req).settledAt = .atAuth ∧
    (runRoute r fns appJwtConfig g w req).handlerRan = false ∧
    (runRoute r fns appJwtConfig g w req).storeCalls = 0 ∧
    (runRoute r fns appJwtConfig g w req).world = w := by
  have hver : jwtVerify appJwtConfig req.auth g.now = false := by
    rcases hauth with h | ⟨raw, h⟩ | ⟨t, h, hs⟩
    · rw [h]; rfl
    · rw [h]; rfl
    · rw [h]
      have hbeq : (t.signedWith == appJwtConfig.secret) = false :=
        beq_eq_false_iff_ne.mpr hs
      simp [jwtVerify, hbeq]
  rcases hr with h | h | h | h <;> subst h <;>
    · unfold runRoute
      rw [hver]
      exact ⟨rfl, rfl, rfl, rfl, rfl, rfl⟩

/-- C3 witness: the theorem evaluated at POST /livros with no token; the
rejection is the auth one, settled before validation, whatever the body. -/
theorem c3_auth_gate_precedence_witness :
    (runRoute .postLivros demoFns appJwtConfig demoGen demoWorld reqBadBookNoAuth).status = 401 ∧
    (runRoute .postLivros demoFns appJwtConfig demoGen demoWorld reqBadBookNoAuth).body =
      .obj [("error", .s "Você precia estar logado.")] ∧
    (runRoute .postLivros demoFns appJwtConfig demoGen demoWorld reqBadBookNoAuth).settledAt = .atAuth ∧
    (runRoute .postLivros demoFns appJwtConfig demoGen demoWorld reqBadBookNoAuth).handlerRan = false ∧
    (runRoute .postLivros demoFns appJwtConfig demoGen demoWorld reqBadBookNoAuth).storeCalls = 0 ∧
    (runRoute .postLivros demoFns appJwtConfig demoGen demoWorld reqBadBookNoAuth).world = demoWorld :=
  c3_auth_gate_precedence .postLivros demoFns demoGen demoWorld reqBadBookNoAuth
    (Or.inr (Or.inl rfl)) (Or.inl rfl)

/-- C5: every successful POST /user registration answers 201 with a body
holding exactly the user's id, nome and email — no password field and no
password hash — even though the handler hands the full stored row, password
hash included, to the response serializer. -/
theorem c5_register_excludes_password (fns : HashFns) (g : Gen) (w : World)
    (req : Request) (nome email password : String)
    (hn : jlookup req.body "nome" = some (.s nome))
    (he : jlookup req.body "email" = some (.s email))
    (hp : jlookup req.body "password" = some (.s password))
    (hvalid : createUserSchemaCheck req.body = true)
    (hnew : w.users.find? (fun u => u.email == email) = none) :
    (runRoute .postUser fns appJwtConfig g w req).status = 201 ∧
    (runRoute .postUser fns appJwtConfig g w req).body =
      .obj [("id", .s g.freshId), ("nome", .s nome), ("email", .s email)] ∧
    UserRec.toFields
        { id := g.freshId, nome := nome, email := email, password := fns.hash password } =
      [("id", .s g.freshId), ("nome", .s nome), ("email", .s email),
       ("password", .s (fns.hash password))] ∧
    (∀ v : JLeaf,
      ("password", v) ∉
        [(("id" : String), JLeaf.s g.freshId), ("nome", .s nome), ("email", .s email)]) := by
  have hn2 : List.lookup "nome" req.body = some (JLeaf.s nome) := hn
  have he2 : List.lookup "email" req.body = some (JLeaf.s email) := he
  have hp2 : List.lookup "password" req.body = some (JLeaf.s password) := hp
  have hrun : runRoute .postUser fns appJwtConfig g w req
      = if createUserSchemaCheck req.body then createUserHandler fns g w req
        else { status := 400, body := .obj [("error", .s "Bad Request")],
               settledAt := .atValidation, handlerRan := false,
               storeCalls := 0, hashCalls := 0, world := w } := rfl
  rw [hrun, hvalid]
  simp only [if_true]
  unfold createUserHandler
  refine ⟨?_, ?_, rfl, ?_⟩
  · simp [jlookup, hn2, he2, hp2, hnew]
  · simp [jlookup, hn2, he2, hp2, hnew, zodPick, userResponseKeys, UserRec.toFields]
    rfl
  · intro v
    simp

/-- C5 witness: the theorem evaluated on a concrete registration request for a
fresh email. -/
theorem c5_register_excludes_password_witness :
    (runRoute .postUser demoFns appJwtConfig demoGen demoWorld reqRegisterBia).status = 201 ∧
    (runRoute .postUser demoFns appJwtConfig demoGen demoWorld reqRegisterBia).body =
      .obj [("id", .s "fresh1"), ("nome", .s "Bia"), ("email", .s "bia@x.com")] ∧
    UserRec.toFields
        { id := "fresh1", nome := "Bia", email := "bia@x.com",
          password := demoFns.hash "pw12345678" } =
      [("id", .s "fresh1"), ("nome", .s "Bia"), ("email", .s "bia@x.com"),
       ("password", .s (demoFns.hash "pw12345678"))] ∧
    (∀ v : JLeaf,
      ("password", v) ∉
        [(("id" : String), JLeaf.s "fresh1"), ("nome", .s "Bia"), ("email", .s "bia@x.com")]) :=
  c5_register_excludes_password demoFns demoGen demoWorld reqRegisterBia
    "Bia" "bia@x.com" "pw12345678" rfl rfl rfl (by decide) (by decide)

/-- C7: a registration whose email equals the email of an already-stored user
answers the conflict branch's 400 client error with its `{message}` body,
computes no password hash, creates no record, and leaves the store — including
the previously stored record — unchanged. -/
theorem c7_duplicate_registration (fns : HashFns) (g : Gen) (w : World)
    (req : Request) (email : String) (usr : UserRec)
    (he : jlookup req.body "email" = some (.s email))
    (hvalid : createUserSchemaCheck req.body = true)
    (hfound : w.users.find? (fun u => u.email == email) = some usr) :
    (runRoute .postUser fns appJwtConfig g w req).status = 400 ∧
    (runRoute .postUser fns appJwtConfig g w req).body =
      .obj [("message", .s "Usuário já existe")] ∧
    (runRoute .postUser fns appJwtConfig g w req).hashCalls = 0 ∧
    (runRoute .postUser fns appJwtConfig g w req).world = w := by
  have he2 : List.lookup "email" req.body = some (JLeaf.s email) := he
  have hrun : runRoute .postUser fns appJwtConfig g w req
      = if createUserSchemaCheck req.body then createUserHandler fns g w req
        else { status := 400, body := .obj [("error", .s "Bad Request")],
               settledAt := .atValidation, handlerRan := false,
               storeCalls := 0, hashCalls := 0, world := w } := rfl
  rw [hrun, hvalid]
  simp only [if_true]
  unfold createUserHandler
  simp [jlookup, he2, hfound]

/-- C7 witness: the theorem evaluated on a concrete second registration of an
email already present in the store. -/
theorem c7_duplicate_registration_witness :
    (runRoute .postUser demoFns appJwtConfig demoGen demoWorld reqRegisterAna).status = 400 ∧
    (runRoute .postUser demoFns appJwtConfig demoGen demoWorld reqRegisterAna).body =
      .obj [("message", .s "Usuário já existe")] ∧
    (runRoute .postUser demoFns appJwtConfig demoGen demoWorld reqRegisterAna).hashCalls = 0 ∧
    (runRoute .postUser demoFns appJwtConfig demoGen demoWorld reqRegisterAna).world = demoWorld :=
  c7_duplicate_registration demoFns demoGen demoWorld reqRegisterAna
    "ana@x.com" demoUser rfl (by decide) (by decide)

/-- C9 amended: for the routes that declare a body schema (POST /user,
POST /livros, PUT /livros/:id), a body failing validation is answered with a
400 client error settled at the validation stage, before the handler and with
no store call and no state change; but POST /login declares no body schema, so
a malformed login body is never rejected before the handler: the handler runs
and the store lookup is invoked. With a missing or non-string email the
request ends in a 500 server error (the prisma call throws); with a present
email string and a missing or non-string password, the store is still
consulted and the response is the 400 `{message: "Usuario não encontrado"}`
client error when the email matches no user, and a 500 server error (the
bcrypt call throws) when it matches one. -/
theorem c9_validation_gap (fns : HashFns) (g : Gen) (w : World) (req : Request) :
    (∀ (r : Route) (check : JObj → Bool),
      declaredBodyCheck r = some check → check req.body = false →
      (requiresAuth r = false ∨ jwtVerify appJwtConfig req.auth g.now = true) →
      (runRoute r fns appJwtConfig g w req).status = 400 ∧
      (runRoute r fns appJwtConfig g w req).settledAt = .atValidation ∧
      (runRoute r fns appJwtConfig g w req).handlerRan = false ∧
      (runRoute r fns appJwtConfig g w req).storeCalls = 0 ∧
      (runRoute r fns appJwtConfig g w req).world = w) ∧
    (isStrVal (jlookup req.body "email") = false →
      (runRoute .postLogin fns appJwtConfig g w req).handlerRan = true ∧
      (runRoute .postLogin fns appJwtConfig g w req).storeCalls = 1 ∧
      (runRoute .postLogin fns appJwtConfig g w req).status = 500) ∧
    (∀ email : String,
      jlookup req.body "email" = some (.s email) →
      isStrVal (jlookup req.body "password") = false →
      (runRoute .postLogin fns appJwtConfig g w req).handlerRan = true ∧
      (runRoute .postLogin fns appJwtConfig g w req).storeCalls = 1 ∧
      (w.users.find? (fun u => u.email == email) = none →
        (runRoute .postLogin fns appJwtConfig g w req).status = 400 ∧
        (runRoute .postLogin fns appJwtConfig g w req).body =
          .obj [("message", .s "Usuario não encontrado")]) ∧
      (∀ usr : UserRec, w.users.find? (fun u => u.email == email) = some usr →
        (runRoute .postLogin fns appJwtConfig g w req).status = 500)) := by
  have hrun : runRoute .postLogin fns appJwtConfig g w req
      = loginHandler fns appJwtConfig g w req := rfl
  refine ⟨?_, ?_, ?_⟩
  · intro r check hdecl hfail hauth
    cases r <;> simp only [declaredBodyCheck] at hdecl
    case postLogin => exact Option.noConfusion hdecl
    case getProfile => exact Option.noConfusion hdecl
    case getLivros => exact Option.noConfusion hdecl
    case deleteLivro => exact Option.noConfusion hdecl
    case postUser =>
      have hc : check = createUserSchemaCheck := by
        injection hdecl with h2; exact h2.symm
      subst hc
      unfold runRoute
      simp [declaredBodyCheck, hfail, pluginOf, createUserPlugin]
    case postLivros =>
      have hc : check = createBookSchemaCheck := by
        injection hdecl with h2; exact h2.symm
      subst hc
      have hver : jwtVerify appJwtConfig req.auth g.now = true := by
        rcases hauth with h | h
        · exact absurd h (by decide)
        · exact h
      unfold runRoute
      simp [declaredBodyCheck, hfail, pluginOf, criarLivrosPlugin, hver]
    case putLivro =>
      have hc : check = createBookSchemaCheck := by
        injection hdecl with h2; exact h2.symm
      subst hc
      unfold runRoute
      simp [declaredBodyCheck, hfail, pluginOf, atualizarLivrosPlugin]
  · intro hemail
    rw [hrun]
    unfold loginHandler
    cases he : jlookup req.body "email" with
    | none => exact ⟨rfl, rfl, rfl⟩
    | some v =>
        cases v with
        | s a => rw [he] at hemail; exact absurd hemail (by simp [isStrVal])
        | n a => exact ⟨rfl, rfl, rfl⟩
        | signedTok a => exact ⟨rfl, rfl, rfl⟩
  · intro email he hpw
    rw [hrun]
    unfold loginHandler
    simp only [he]
    cases hfind : w.users.find? (fun u => u.email == email) with
    | none =>
        refine ⟨rfl, rfl, fun _ => ⟨rfl, rfl⟩, ?_⟩
        intro usr husr
        exact Option.noConfusion husr
    | some user =>
        cases hp : jlookup req.body "password" with
        | none =>
            refine ⟨rfl, rfl, ?_, ?_⟩
            · intro hnone
              exact Option.noConfusion hnone
            · intro usr husr
              rfl
        | some v =>
            cases v with
            | s a => rw [hp] at hpw; exact absurd hpw (by simp [isStrVal])
            | n a =>
                refine ⟨rfl, rfl, ?_, ?_⟩
                · intro hnone
                  exact Option.noConfusion hnone
                · intro usr husr
                  rfl
            | signedTok a =>
                refine ⟨rfl, rfl, ?_, ?_⟩
                · intro hnone
                  exact Option.noConfusion hnone
                · intro usr husr
                  rfl

/-- C9 witness: the declared-schema half of the amended theorem evaluated at
POST /user with an empty body, and the no-schema login half evaluated on a
body carrying a stored user's email and no password. -/
theorem c9_validation_gap_witness :
    ((runRoute .postUser demoFns appJwtConfig demoGen demoWorld reqEmptyBody).status = 400 ∧
     (runRoute .postUser demoFns appJwtConfig demoGen demoWorld reqEmptyBody).settledAt = .atValidation ∧
     (runRoute .postUser demoFns appJwtConfig demoGen demoWorld reqEmptyBody).handlerRan = false ∧
     (runRoute .postUser demoFns appJwtConfig demoGen demoWorld reqEmptyBody).storeCalls = 0 ∧
     (runRoute .postUser demoFns appJwtConfig demoGen demoWorld reqEmptyBody).world = demoWorld) ∧
    ((runRoute .postLogin demoFns appJwtConfig demoGen demoWorld reqKnownEmailNoPw).handlerRan = true ∧
     (runRoute .postLogin demoFns appJwtConfig demoGen demoWorld reqKnownEmailNoPw).storeCalls = 1 ∧
     (runRoute .postLogin demoFns appJwtConfig demoGen demoWorld reqKnownEmailNoPw).status = 500) :=
  ⟨(c9_validation_gap demoFns demoGen demoWorld reqEmptyBody).1
      .postUser createUserSchemaCheck rfl (by decide) (Or.inl rfl),
   by
     have h := (c9_validation_gap demoFns demoGen demoWorld reqKnownEmailNoPw).2.2
       "ana@x.com" rfl (by decide)
     exact ⟨h.1, h.2.1, h.2.2.2 demoUser (by decide)⟩⟩

/-- C10 amended: the book validator is purely structural — it accepts every
payload whose nome and autor are strings (empty allowed) and whose preco and
quantidade are numbers (negative and fractional allowed) — and any payload
failing these structural checks is rejected with a 400 client error at the
validation stage, before the handler runs. -/
theorem c10_book_validator_structural (s1 s2 : String) (q1 q2 : Rat)
    (fns : HashFns) (g : Gen) (w : World) (req : Request)
    (hfail : createBookSchemaCheck req.body = false)
    (hauth : jwtVerify appJwtConfig req.auth g.now = true) :
    createBookSchemaCheck
        [("nome", .s s1), ("autor", .s s2), ("preco", .n q1), ("quantidade", .n q2)] = true ∧
    (runRoute .postLivros fns appJwtConfig g w req).status = 400 ∧
    (runRoute .postLivros fns appJwtConfig g w req).settledAt = .atValidation ∧
    (runRoute .postLivros fns appJwtConfig g w req).handlerRan = false := by
  refine ⟨rfl, ?_⟩
  unfold runRoute
  simp [declaredBodyCheck, hfail, pluginOf, criarLivrosPlugin, hauth]

/-- C10 witness: the amended theorem evaluated on the all-violations payload
and on a concrete authenticated request whose body is not a book shape. -/
theorem c10_book_validator_structural_witness :
    createBookSchemaCheck
        [(("nome" : String), JLeaf.s ""), ("autor", .s ""), ("preco", .n (-3)),
         ("quantidade", .n (1/2))] = true ∧
    (runRoute .postLivros demoFns appJwtConfig demoGen demoWorld reqAuthedNotBook).status = 400 ∧
    (runRoute .postLivros demoFns appJwtConfig demoGen demoWorld reqAuthedNotBook).settledAt = .atValidation ∧
    (runRoute .postLivros demoFns appJwtConfig demoGen demoWorld reqAuthedNotBook).handlerRan = false :=
  c10_book_validator_structural "" "" (-3) (1/2) demoFns demoGen demoWorld reqAuthedNotBook
    (by decide) (by decide)

end ImersaoBackend
